import Mathlib

/-!
# demux-into-video-audio: a shallow embedding of `src/demux-into-audio-video.c`

The program opens a media container with libavformat, selects the best video
and the best audio stream, creates one output container for each, and copies
every packet of the two streams into its container after rescaling the
timestamps.

The C file is one translation unit with three functions (`open_codec_context`,
`log_packet`, `main`).  Everything it does goes through calls into the FFmpeg
libraries, whose code is not part of the repository.  The embedding therefore
takes the behaviour of the library in one run as a parameter (`Lib`): the
return value of every library call the program makes, the packets that
`av_read_frame` delivers, and what the library does to a packet it is handed by
pointer.  `main` is then a total function from that behaviour and `argc` to the
way the process ends (`Outcome`) and the sequence of library calls it made
(`Call`).  Logging (`fprintf`, `printf`, `av_dump_format`, `log_packet`) has no
effect on control flow and is left out of the call sequence.
-/

namespace Demux

/-! ## Data model -/

/-- Media kind, `enum AVMediaType` restricted to the two values the program
uses.  It also names the two output contexts (`video_output_fmt_ctx`,
`audio_output_fmt_ctx`). -/
inductive AVMediaType where
  | video
  | audio
  deriving DecidableEq, Repr

/-- Rational number `AVRational` (numerator, denominator). -/
structure AVRational where
  num : Int
  den : Int
  deriving DecidableEq, Repr

/-- The one field of `AVStream` the program reads in the packet loop. -/
structure AVStream where
  time_base : AVRational
  deriving DecidableEq, Repr

/-- The fields of `AVPacket` the program reads or writes.  `data` stands for
the payload (`data`/`size`); the empty list is the `NULL`/0 payload. -/
structure AVPacket where
  pts : Int
  dts : Int
  duration : Int
  pos : Int
  stream_index : Int
  data : List Nat
  deriving DecidableEq, Repr

/-- `AV_NOPTS_VALUE`, `((int64_t)UINT64_C(0x8000000000000000))`. -/
def AV_NOPTS_VALUE : Int := -9223372036854775808

/-- `INT64_MIN`. -/
def INT64_MIN : Int := -9223372036854775808

/-- `INT64_MAX`. -/
def INT64_MAX : Int := 9223372036854775807

/-- `AVERROR(e)` on a POSIX system: the negated errno value. -/
def AVERROR (e : Int) : Int := -e

/-- `EINVAL`. -/
def EINVAL : Int := 22

/-- `ENOMEM`. -/
def ENOMEM : Int := 12

/-- `AVERROR_UNKNOWN`, `FFERRTAG('U','N','K','N')`. -/
def AVERROR_UNKNOWN : Int := -1313558101

/-- `AVERROR_EOF`, `FFERRTAG('E','O','F',' ')`. -/
def AVERROR_EOF : Int := -541478725

/-- The behaviour of the FFmpeg libraries in one run of the program.

* a field of type `Int` is the return value of the call of that name;
* a field of type `Bool` tells whether the call yields a non-null pointer;
* `streams i` is `fmt_ctx->streams[i]`;
* `nofile o` is `o`'s `oformat->flags & AVFMT_NOFILE`;
* `out_time_base o` is the time base of the output stream of `o` (as left by
  `avformat_write_header`);
* `packets` are the packets `av_read_frame` delivers, in order, each with
  return value 0; the call after the last one returns `read_end`, which is
  negative (`AVERROR_EOF` or a read error);
* `av_rescale_q` is the library function of that name (used for durations);
* `av_interleaved_write_frame o n pkt` is the return value of the write of
  `pkt` to output `o` in the loop iteration that handles packet number `n`,
  together with the packet as the call leaves it (it receives a pointer);
* `av_packet_unref pkt` is the packet as `av_packet_unref` leaves it. -/
structure Lib where
  avformat_open_input : Int
  avformat_find_stream_info : Int
  av_find_best_stream : AVMediaType → Int
  streams : Int → AVStream
  avcodec_find_decoder : Int → Bool
  avcodec_alloc_context3 : AVMediaType → Bool
  avcodec_parameters_to_context : AVMediaType → Int
  avformat_alloc_output_context2 : AVMediaType → Bool
  nofile : AVMediaType → Bool
  avformat_new_stream : AVMediaType → Bool
  avcodec_copy_context : AVMediaType → Int
  avio_open : AVMediaType → Int
  avformat_write_header : AVMediaType → Int
  out_time_base : AVMediaType → AVRational
  packets : List AVPacket
  read_end : Int
  read_end_neg : read_end < 0
  av_rescale_q : Int → AVRational → AVRational → Int
  av_interleaved_write_frame : AVMediaType → Nat → AVPacket → Int × AVPacket
  av_packet_unref : AVPacket → AVPacket

/-- A library call made by the program.  In `av_interleaved_write_frame o n pkt`
the number `n` is the position, in read order, of the packet whose loop
iteration makes the call. -/
inductive Call where
  | av_register_all
  | avformat_open_input
  | avformat_find_stream_info
  | av_find_best_stream (type : AVMediaType)
  | avcodec_find_decoder (type : AVMediaType)
  | avcodec_alloc_context3 (type : AVMediaType)
  | avcodec_parameters_to_context (type : AVMediaType)
  | avformat_alloc_output_context2 (o : AVMediaType)
  | avformat_new_stream (o : AVMediaType)
  | avcodec_copy_context (o : AVMediaType)
  | avio_open (o : AVMediaType)
  | avformat_write_header (o : AVMediaType)
  | av_init_packet
  | av_read_frame
  | av_interleaved_write_frame (o : AVMediaType) (n : Nat) (pkt : AVPacket)
  | av_packet_unref
  | av_write_trailer (o : AVMediaType)
  | avcodec_free_context (type : AVMediaType)
  | avformat_close_input
  | avio_closep (o : AVMediaType)
  | avformat_free_context (o : AVMediaType)
  deriving DecidableEq, Repr

/-- How the process ends: with an exit status (`exit(status)` or `return` from
`main`), or by evaluating `p->field` for a null `p`. -/
inductive Outcome where
  | exit (status : Int)
  | null_deref
  deriving DecidableEq, Repr

/-- One run of `main`: how it ends and the library calls it made, in order. -/
structure Run where
  outcome : Outcome
  calls : List Call
  deriving DecidableEq, Repr

/-! ## The timestamp rescaler (library function, modelled from the spec) -/

/-- Modelled from the spec: rounding of the exact quotient `n / d` to the
nearest integer, ties away from zero (spec §4.3, "round-to-nearest with
tie-break away from zero"); it is part of libavutil, which the repository does
not contain. -/
def round_near_inf (n d : Int) : Int :=
  Int.sign n * Int.sign d * (((2 * n.natAbs + d.natAbs) / (2 * d.natAbs) : Nat) : Int)

/-- Modelled from the spec: the Timestamp Rescaler of spec §4.3 for pts and
dts, which is libavutil's `av_rescale_q_rnd` called with
`AV_ROUND_NEAR_INF|AV_ROUND_PASS_MINMAX`; libavutil is not in the repository.
The unset sentinel maps to itself, the minimal and maximal markers pass
through, and every other value `a` becomes `a * bq / cq` computed exactly and
rounded to nearest, ties away from zero. -/
def av_rescale_q_rnd (a : Int) (bq cq : AVRational) : Int :=
  if a = AV_NOPTS_VALUE then AV_NOPTS_VALUE
  else if a = INT64_MIN ∨ a = INT64_MAX then a
  else round_near_inf (a * (bq.num * cq.den)) (bq.den * cq.num)

/-! ## `open_codec_context` (lines 58-102) -/

/-- Result of `open_codec_context`: its return value, the value of
`*stream_idx` afterwards, and the library calls made. -/
structure CodecOpen where
  ret : Int
  stream_idx : Int
  calls : List Call
  deriving DecidableEq, Repr

/-- `open_codec_context(&stream_idx, &dec_ctx, fmt_ctx, type)`; the argument
`stream_idx` is the value of `*stream_idx` before the call. -/
def open_codec_context (lib : Lib) (stream_idx : Int) (type : AVMediaType) : CodecOpen :=
  let ret := lib.av_find_best_stream type
  if ret < 0 then
    ⟨ret, stream_idx, [.av_find_best_stream type]⟩
  else
    let stream_index := ret
    if !lib.avcodec_find_decoder stream_index then
      ⟨AVERROR EINVAL, stream_idx, [.av_find_best_stream type, .avcodec_find_decoder type]⟩
    else if !lib.avcodec_alloc_context3 type then
      ⟨AVERROR ENOMEM, stream_idx,
        [.av_find_best_stream type, .avcodec_find_decoder type, .avcodec_alloc_context3 type]⟩
    else
      let ret := lib.avcodec_parameters_to_context type
      if ret < 0 then
        ⟨ret, stream_idx,
          [.av_find_best_stream type, .avcodec_find_decoder type, .avcodec_alloc_context3 type,
           .avcodec_parameters_to_context type]⟩
      else
        ⟨0, stream_index,
          [.av_find_best_stream type, .avcodec_find_decoder type, .avcodec_alloc_context3 type,
           .avcodec_parameters_to_context type]⟩

/-! ## `main` (lines 120-345) -/

/-- The globals the packet loop reads: the two selected input stream indices,
the two input streams and the two output streams. -/
structure Session where
  video_in_stream_idx : Int
  audio_in_stream_idx : Int
  video_in_stream : AVStream
  audio_in_stream : AVStream
  video_out_stream : AVStream
  audio_out_stream : AVStream

/-- The globals as `main` has them when it enters the packet loop: the indices
are what the two `open_codec_context` calls of lines 159 and 164 left (both
start at -1), the input streams are `fmt_ctx->streams[idx]` (lines 160, 165). -/
def session (lib : Lib) : Session :=
  let v := open_codec_context lib (-1) .video
  let a := open_codec_context lib (-1) .audio
  { video_in_stream_idx := v.stream_idx
    audio_in_stream_idx := a.stream_idx
    video_in_stream := lib.streams v.stream_idx
    audio_in_stream := lib.streams a.stream_idx
    video_out_stream := ⟨lib.out_time_base .video⟩
    audio_out_stream := ⟨lib.out_time_base .audio⟩ }

/-- The input stream index that is routed to output `o`. -/
def Session.in_idx (s : Session) : AVMediaType → Int
  | .video => s.video_in_stream_idx
  | .audio => s.audio_in_stream_idx

/-- The input stream whose packets go to output `o`. -/
def Session.in_stream (s : Session) : AVMediaType → AVStream
  | .video => s.video_in_stream
  | .audio => s.audio_in_stream

/-- The output stream of output `o`. -/
def Session.out_stream (s : Session) : AVMediaType → AVStream
  | .video => s.video_out_stream
  | .audio => s.audio_out_stream

/-- Lines 278-285 (video) and 299-306 (audio): pts and dts are rescaled with
`av_rescale_q_rnd`, the duration with `av_rescale_q`, `pos` becomes -1 and
`stream_index` becomes 0. -/
def remux (lib : Lib) (in_stream out_stream : AVStream) (pkt : AVPacket) : AVPacket :=
  { pkt with
    pts := av_rescale_q_rnd pkt.pts in_stream.time_base out_stream.time_base
    dts := av_rescale_q_rnd pkt.dts in_stream.time_base out_stream.time_base
    duration := lib.av_rescale_q pkt.duration in_stream.time_base out_stream.time_base
    pos := -1
    stream_index := 0 }

/-- Lines 297-315, the second `if` of the loop body, entered with the packet
as the first `if` left it.  The result is `some ret` when the body leaves the
loop with `break` (`ret < 0`), `none` when it falls through to the next
iteration, and the library calls made. -/
def audio_branch (lib : Lib) (s : Session) (n : Nat) (pkt : AVPacket) :
    Option Int × List Call :=
  if pkt.stream_index = s.audio_in_stream_idx then
    let pkt1 := remux lib s.audio_in_stream s.audio_out_stream pkt
    let w := lib.av_interleaved_write_frame .audio n pkt1
    if w.1 < 0 then
      (some w.1, [.av_interleaved_write_frame .audio n pkt1])
    else
      (none, [.av_interleaved_write_frame .audio n pkt1, .av_packet_unref])
  else
    (none, [])

/-- Lines 275-315, the loop body after a successful `av_read_frame` that
delivered `pkt` as packet number `n`: the video `if` (lines 275-295) followed
by the audio `if` (lines 297-315), which tests the packet as the video branch
left it. -/
def loop_body (lib : Lib) (s : Session) (n : Nat) (pkt : AVPacket) :
    Option Int × List Call :=
  if pkt.stream_index = s.video_in_stream_idx then
    let pkt1 := remux lib s.video_in_stream s.video_out_stream pkt
    let w := lib.av_interleaved_write_frame .video n pkt1
    if w.1 < 0 then
      (some w.1, [.av_interleaved_write_frame .video n pkt1])
    else
      let pkt2 := lib.av_packet_unref w.2
      let r := audio_branch lib s n pkt2
      (r.1, [Call.av_interleaved_write_frame .video n pkt1, Call.av_packet_unref] ++ r.2)
  else
    audio_branch lib s n pkt

/-- Lines 270-316, `while(1)`: the packets still to be delivered are `pkts`,
the next one is packet number `n`.  The result is the value of `ret` when the
loop is left and the library calls made.  The loop is left only by a `break`,
each of which is guarded by `ret < 0`. -/
def read_loop (lib : Lib) (s : Session) : Nat → List AVPacket → Int × List Call
  | _, [] => (lib.read_end, [.av_read_frame])
  | n, pkt :: rest =>
    match loop_body lib s n pkt with
    | (some ret, calls) => (ret, .av_read_frame :: calls)
    | (none, calls) =>
      let r := read_loop lib s (n + 1) rest
      (r.1, .av_read_frame :: calls ++ r.2)

/-- Lines 325-344, the label `end`: what is released, given whether the two
output contexts are non-null.  `video_enc_file` and `audio_enc_file` are never
assigned, so neither `fclose` is reached. -/
def cleanup (lib : Lib) (video_ctx audio_ctx : Bool) : List Call :=
  [.avcodec_free_context .video, .avcodec_free_context .audio, .avformat_close_input]
  ++ (if video_ctx && !lib.nofile .video then [.avio_closep .video] else [])
  ++ (if audio_ctx && !lib.nofile .audio then [.avio_closep .audio] else [])
  ++ [.avformat_free_context .video, .avformat_free_context .audio]

/-- Arrival at the label `end` with the given `ret` after the calls `pre`:
cleanup, then `return ret < 0`. -/
def finish (lib : Lib) (ret : Int) (video_ctx audio_ctx : Bool) (pre : List Call) : Run :=
  { outcome := .exit (if ret < 0 then 1 else 0)
    calls := pre ++ cleanup lib video_ctx audio_ctx }

/-- Result of the construction of one output container. -/
inductive Built where
  | ok (calls : List Call)
  | fail (ret : Int) (ctx : Bool) (calls : List Call)
  | null_deref (calls : List Call)
  deriving DecidableEq, Repr

/-- Lines 179-210 for `o = video` and lines 213-244 for `o = audio` (the two
passages differ only in the prefix `video_`/`audio_`): allocate the output
context, create the stream from `in_stream->codec->codec`, copy the codec
context, open the file unless the format has `AVFMT_NOFILE`.  `fail ret ctx`
is a `goto end` with that `ret`, `ctx` telling whether the output context is
non-null; `null_deref` is the evaluation of `in_stream->codec` (lines 187,
221) for a null `in_stream`. -/
def build_output (lib : Lib) (o : AVMediaType) (in_stream : Option AVStream) : Built :=
  if !lib.avformat_alloc_output_context2 o then
    .fail AVERROR_UNKNOWN false [.avformat_alloc_output_context2 o]
  else
    match in_stream with
    | none => .null_deref [.avformat_alloc_output_context2 o]
    | some _ =>
      if !lib.avformat_new_stream o then
        .fail AVERROR_UNKNOWN true [.avformat_alloc_output_context2 o, .avformat_new_stream o]
      else
        let ret := lib.avcodec_copy_context o
        if ret < 0 then
          .fail ret true
            [.avformat_alloc_output_context2 o, .avformat_new_stream o, .avcodec_copy_context o]
        else if !lib.nofile o then
          let ret := lib.avio_open o
          if ret < 0 then
            .fail ret true
              [.avformat_alloc_output_context2 o, .avformat_new_stream o,
               .avcodec_copy_context o, .avio_open o]
          else
            .ok [.avformat_alloc_output_context2 o, .avformat_new_stream o,
                 .avcodec_copy_context o, .avio_open o]
        else
          .ok [.avformat_alloc_output_context2 o, .avformat_new_stream o,
               .avcodec_copy_context o]

/-- The library calls of lines 145-166 when both the open and the stream-info
call succeed. -/
def input_calls (lib : Lib) : List Call :=
  [.av_register_all, .avformat_open_input, .avformat_find_stream_info]
  ++ (open_codec_context lib (-1) .video).calls
  ++ (open_codec_context lib (-1) .audio).calls

/-- Lines 178-344 of `main`, reached when at least one input stream is
selected: construction of the two outputs, the two headers, the packet loop,
the trailers and the cleanup.  `video_in_stream` and `audio_in_stream` are the
two globals of that name, `none` for a null pointer. -/
def main_outputs (lib : Lib) (video_in_stream audio_in_stream : Option AVStream) : Run :=
  -- lines 179-210
  match build_output lib .video video_in_stream with
  | .null_deref c => ⟨.null_deref, input_calls lib ++ c⟩
  | .fail ret ctx c => finish lib ret ctx false (input_calls lib ++ c)
  | .ok cv =>
    -- lines 213-244
    match build_output lib .audio audio_in_stream with
    | .null_deref c => ⟨.null_deref, input_calls lib ++ cv ++ c⟩
    | .fail ret ctx c => finish lib ret true ctx (input_calls lib ++ cv ++ c)
    | .ok ca =>
      -- lines 246-250
      let ret := lib.avformat_write_header .video
      if ret < 0 then
        finish lib ret true true
          (input_calls lib ++ cv ++ ca ++ [.avformat_write_header .video])
      else
        -- lines 252-256
        let ret := lib.avformat_write_header .audio
        if ret < 0 then
          finish lib ret true true
            (input_calls lib ++ cv ++ ca
              ++ [.avformat_write_header .video, .avformat_write_header .audio])
        else
          -- lines 260-322
          let r := read_loop lib (session lib) 0 lib.packets
          finish lib r.1 true true
            (input_calls lib ++ cv ++ ca
              ++ [.avformat_write_header .video, .avformat_write_header .audio,
                  .av_init_packet]
              ++ r.2
              ++ [.av_write_trailer .video, .av_write_trailer .audio])

/-- `main(argc, argv)`.  The file names in `argv` only reach the library, whose
behaviour is `lib`. -/
def main (lib : Lib) (argc : Int) : Run :=
  -- lines 124-132
  if argc ≠ 4 ∧ argc ≠ 5 then ⟨.exit 1, []⟩
  -- lines 145-151
  else if lib.avformat_open_input < 0 then
    ⟨.exit 1, [.av_register_all, .avformat_open_input]⟩
  -- lines 154-157
  else if lib.avformat_find_stream_info < 0 then
    ⟨.exit 1, [.av_register_all, .avformat_open_input, .avformat_find_stream_info]⟩
  else
    -- lines 159-166
    let v := open_codec_context lib (-1) .video
    let video_in_stream : Option AVStream :=
      if v.ret ≥ 0 then some (lib.streams v.stream_idx) else none
    let a := open_codec_context lib (-1) .audio
    let audio_in_stream : Option AVStream :=
      if a.ret ≥ 0 then some (lib.streams a.stream_idx) else none
    -- lines 171-175
    if audio_in_stream.isNone ∧ video_in_stream.isNone then
      finish lib 1 false false (input_calls lib)
    else
      main_outputs lib video_in_stream audio_in_stream

/-! ## Sample library behaviours -/

/-- The packet as `av_init_packet` leaves it, with the payload dropped: the
state in which libavcodec's `av_packet_unref` and libavformat's
`av_interleaved_write_frame` leave the caller's packet. -/
def blank_packet : AVPacket :=
  { pts := AV_NOPTS_VALUE, dts := AV_NOPTS_VALUE, duration := 0, pos := -1,
    stream_index := 0, data := [] }

/-- A packet of stream `idx` with the given timestamp and a one-byte payload. -/
def sample_packet (idx ts : Int) (byte : Nat) : AVPacket :=
  { pts := ts, dts := ts, duration := 1, pos := 0, stream_index := idx, data := [byte] }

/-- A run in which every library call succeeds: the input has its video stream
at index 0 (time base 1/30000), its audio stream at index 1 (time base
1/48000) and a third stream at index 2; it delivers five packets and then
reports the end of the file.  The output streams keep the input time bases,
durations are rescaled with a truncating division, and both the write and
`av_packet_unref` leave the caller's packet blank. -/
def sample_lib : Lib :=
  { avformat_open_input := 0
    avformat_find_stream_info := 0
    av_find_best_stream := fun t => match t with
      | .video => 0
      | .audio => 1
    streams := fun i => if i = 0 then ⟨⟨1, 30000⟩⟩ else ⟨⟨1, 48000⟩⟩
    avcodec_find_decoder := fun _ => true
    avcodec_alloc_context3 := fun _ => true
    avcodec_parameters_to_context := fun _ => 0
    avformat_alloc_output_context2 := fun _ => true
    nofile := fun _ => false
    avformat_new_stream := fun _ => true
    avcodec_copy_context := fun _ => 0
    avio_open := fun _ => 0
    avformat_write_header := fun _ => 0
    out_time_base := fun o => match o with
      | .video => ⟨1, 30000⟩
      | .audio => ⟨1, 48000⟩
    packets := [sample_packet 0 0 10, sample_packet 1 0 20, sample_packet 2 0 30,
                sample_packet 0 1 11, sample_packet 1 1000 21]
    read_end := AVERROR_EOF
    read_end_neg := by decide
    av_rescale_q := fun a bq cq => (a * (bq.num * cq.den)) / (bq.den * cq.num)
    av_interleaved_write_frame := fun _ _ _ => (0, blank_packet)
    av_packet_unref := fun _ => blank_packet }

/-- As `sample_lib`, but the input has no video and no audio stream:
`av_find_best_stream` fails for both kinds (`AVERROR_STREAM_NOT_FOUND`). -/
def lib_no_streams : Lib :=
  { sample_lib with av_find_best_stream := fun _ => -1381258232, packets := [] }

/-- As `sample_lib`, but the input has a video stream (index 0) and no audio
stream. -/
def lib_video_only : Lib :=
  { sample_lib with
    av_find_best_stream := fun t => match t with
      | .video => 0
      | .audio => -1381258232
    packets := [sample_packet 0 0 10] }

/-- As `sample_lib`, but the audio stream is stream 0 and the video stream is
stream 1, and the input delivers one packet, of the video stream. -/
def lib_audio_first : Lib :=
  { sample_lib with
    av_find_best_stream := fun t => match t with
      | .video => 1
      | .audio => 0
    streams := fun i => if i = 1 then ⟨⟨1, 30000⟩⟩ else ⟨⟨1, 48000⟩⟩
    packets := [sample_packet 1 0 10] }

/-- As `sample_lib`, but `avformat_find_stream_info` fails. -/
def lib_no_stream_info : Lib :=
  { sample_lib with avformat_find_stream_info := -1 }

/-- As `sample_lib`, but the video destination cannot be opened. -/
def lib_video_open_fails : Lib :=
  { sample_lib with
    avio_open := fun o => match o with
      | .video => -2
      | .audio => 0 }

/-! ## Observations on a call sequence -/

/-- The library calls of lines 179-210 (`o = video`) or 213-244 (`o = audio`)
when each of them succeeds. -/
def output_calls (lib : Lib) (o : AVMediaType) : List Call :=
  if lib.nofile o then
    [.avformat_alloc_output_context2 o, .avformat_new_stream o, .avcodec_copy_context o]
  else
    [.avformat_alloc_output_context2 o, .avformat_new_stream o, .avcodec_copy_context o,
     .avio_open o]

/-- Every step of the construction of output `o` succeeds: context, stream,
codec-parameter copy, file open (when the format needs a file), header. -/
def output_ok (lib : Lib) (o : AVMediaType) : Prop :=
  lib.avformat_alloc_output_context2 o = true ∧ lib.avformat_new_stream o = true
  ∧ 0 ≤ lib.avcodec_copy_context o ∧ (lib.nofile o = true ∨ 0 ≤ lib.avio_open o)
  ∧ 0 ≤ lib.avformat_write_header o

instance (lib : Lib) (o : AVMediaType) : Decidable (output_ok lib o) := by
  unfold output_ok; infer_instance

/-- Some step of the construction of output `o` fails: the context is not
created, the stream is not allocated, the codec-parameter copy fails, the file
is needed and cannot be opened, or the header write fails. -/
def output_step_fails (lib : Lib) (o : AVMediaType) : Prop :=
  lib.avformat_alloc_output_context2 o = false ∨ lib.avformat_new_stream o = false
  ∨ lib.avcodec_copy_context o < 0 ∨ (lib.nofile o = false ∧ lib.avio_open o < 0)
  ∨ lib.avformat_write_header o < 0

instance (lib : Lib) (o : AVMediaType) : Decidable (output_step_fails lib o) := by
  unfold output_step_fails; infer_instance

/-- Whether a call belongs to the packet loop: a packet read or a packet
write. -/
def is_loop_call : Call → Bool
  | .av_read_frame => true
  | .av_interleaved_write_frame _ _ _ => true
  | _ => false

/-- Both input streams are selected: the argument count is accepted, the input
is opened and analysed, and `open_codec_context` succeeds for both kinds. -/
def input_ok (lib : Lib) (argc : Int) : Prop :=
  (argc = 4 ∨ argc = 5) ∧ 0 ≤ lib.avformat_open_input ∧ 0 ≤ lib.avformat_find_stream_info
  ∧ 0 ≤ (open_codec_context lib (-1) .video).ret
  ∧ 0 ≤ (open_codec_context lib (-1) .audio).ret

instance (lib : Lib) (argc : Int) : Decidable (input_ok lib argc) := by
  unfold input_ok; infer_instance

/-- Setup succeeds: both input streams are selected, both output containers
are built and both headers are written. -/
def setup_ok (lib : Lib) (argc : Int) : Prop :=
  input_ok lib argc ∧ output_ok lib .video ∧ output_ok lib .audio

instance (lib : Lib) (argc : Int) : Decidable (setup_ok lib argc) := by
  unfold setup_ok; infer_instance

/-- Whether a call is a packet write to output `o`. -/
def is_write (o : AVMediaType) : Call → Bool
  | .av_interleaved_write_frame o2 _ _ => decide (o2 = o)
  | _ => false

/-- Number of packet writes to output `o` in a call sequence. -/
def writes_to (o : AVMediaType) (calls : List Call) : Nat :=
  calls.countP (is_write o)

/-- Number of packets with source stream index `idx`. -/
def reads_with (idx : Int) (pkts : List AVPacket) : Nat :=
  pkts.countP (fun p => decide (p.stream_index = idx))

/-! ## Auxiliary facts -/

theorem open_codec_context_calls (lib : Lib) (i : Int) (t : AVMediaType) (c : Call)
    (hc : c ∈ (open_codec_context lib i t).calls) :
    c = .av_find_best_stream t ∨ c = .avcodec_find_decoder t
      ∨ c = .avcodec_alloc_context3 t ∨ c = .avcodec_parameters_to_context t := by
  unfold open_codec_context at hc
  simp only at hc
  split_ifs at hc <;> simp at hc <;> tauto

theorem build_output_of_ok (lib : Lib) (o : AVMediaType) (st : AVStream)
    (h : output_ok lib o) : build_output lib o (some st) = .ok (output_calls lib o) := by
  obtain ⟨h1, h2, h3, h4, _⟩ := h
  unfold build_output output_calls
  rcases h4 with h4 | h4
  · simp [h1, h2, h3, h4, not_lt.mpr h3]
  · cases hn : lib.nofile o <;> simp [h1, h2, h3, h4, hn, not_lt.mpr h3, not_lt.mpr h4]

/-- When setup succeeds, `main` runs the packet loop, writes both trailers and
goes through the cleanup at `end` with the `ret` the loop left. -/
theorem main_of_setup_ok (lib : Lib) (argc : Int) (h : setup_ok lib argc) :
    main lib argc =
      finish lib (read_loop lib (session lib) 0 lib.packets).1 true true
        (input_calls lib ++ output_calls lib .video ++ output_calls lib .audio
          ++ [.avformat_write_header .video, .avformat_write_header .audio, .av_init_packet]
          ++ (read_loop lib (session lib) 0 lib.packets).2
          ++ [.av_write_trailer .video, .av_write_trailer .audio]) := by
  obtain ⟨⟨hargc, hopen, hinfo, hv, ha⟩, hov, hoa⟩ := h
  have hargc2 : ¬ (argc ≠ 4 ∧ argc ≠ 5) := by omega
  unfold main main_outputs
  simp only [hargc2, not_lt.mpr hopen, not_lt.mpr hinfo, if_false, ge_iff_le, hv, ha, if_true,
    Option.isNone_some, Bool.false_eq_true, and_self, build_output_of_ok lib _ _ hov,
    build_output_of_ok lib _ _ hoa, not_lt.mpr hov.2.2.2.2, not_lt.mpr hoa.2.2.2.2]

theorem audio_branch_break_neg (lib : Lib) (s : Session) (n : Nat) (pkt : AVPacket) (r : Int)
    (h : (audio_branch lib s n pkt).1 = some r) : r < 0 := by
  unfold audio_branch at h
  simp only at h
  split_ifs at h with h1 h2
  · simp at h; omega

theorem loop_body_break_neg (lib : Lib) (s : Session) (n : Nat) (pkt : AVPacket) (r : Int)
    (h : (loop_body lib s n pkt).1 = some r) : r < 0 := by
  unfold loop_body at h
  simp only at h
  split_ifs at h with h1 h2
  · simp at h; omega
  · exact audio_branch_break_neg _ _ _ _ _ h
  · exact audio_branch_break_neg _ _ _ _ _ h

/-- The packet loop is left only with a negative `ret`. -/
theorem read_loop_ret_neg (lib : Lib) (s : Session) (pkts : List AVPacket) (n : Nat) :
    (read_loop lib s n pkts).1 < 0 := by
  induction pkts generalizing n with
  | nil => simpa [read_loop] using lib.read_end_neg
  | cons pkt rest ih =>
    unfold read_loop
    split
    · next ret calls hb =>
      exact loop_body_break_neg lib s n pkt ret (by rw [hb])
    · exact ih (n + 1)

/-! ## C1: exit status of a successful run -/

/-- C1 (as the code behaves): whenever setup succeeds (input opened, both
streams selected, both output containers built, both headers written), `main`
returns exit status 1, whatever the packets are, whether or not a write fails
and whatever negative code ends the reading; in particular a run that ends at
the end of the input with every write successful returns 1, not 0. -/
theorem main_exit_status_after_loop (lib : Lib) (argc : Int) (h : setup_ok lib argc) :
    (main lib argc).outcome = .exit 1 := by
  rw [main_of_setup_ok lib argc h]
  simp [finish, read_loop_ret_neg]

/-- The run `sample_lib` (every call succeeds, five packets, end of file) with
three arguments ends with exit status 1. -/
theorem main_exit_status_after_loop_witness :
    setup_ok sample_lib 4 ∧ sample_lib.read_end = AVERROR_EOF
      ∧ (main sample_lib 4).outcome = .exit 1 :=
  ⟨by decide, rfl, main_exit_status_after_loop sample_lib 4 (by decide)⟩

/-! ## C2: input without a video and without an audio stream -/

/-- C2 (as the code behaves): when stream selection fails for both kinds,
`main` makes no call that creates an output container (no context allocation,
stream creation, file open or header write) and returns exit status 0: line
173 sets `ret = 1` and line 344 returns `ret < 0`. -/
theorem main_no_streams_exit_status (lib : Lib) (argc : Int)
    (hargc : argc = 4 ∨ argc = 5) (hopen : 0 ≤ lib.avformat_open_input)
    (hinfo : 0 ≤ lib.avformat_find_stream_info)
    (hv : (open_codec_context lib (-1) .video).ret < 0)
    (ha : (open_codec_context lib (-1) .audio).ret < 0) :
    (main lib argc).outcome = .exit 0
      ∧ ∀ o, Call.avformat_alloc_output_context2 o ∉ (main lib argc).calls
          ∧ Call.avformat_new_stream o ∉ (main lib argc).calls
          ∧ Call.avio_open o ∉ (main lib argc).calls
          ∧ Call.avformat_write_header o ∉ (main lib argc).calls := by
  have hargc2 : ¬ (argc ≠ 4 ∧ argc ≠ 5) := by omega
  have hm : main lib argc = finish lib 1 false false (input_calls lib) := by
    unfold main
    simp only [hargc2, not_lt.mpr hopen, not_lt.mpr hinfo, if_false, ge_iff_le,
      not_le.mpr hv, not_le.mpr ha, Option.isNone_none, and_self, if_true]
  rw [hm]
  refine ⟨by simp [finish], fun o => ?_⟩
  have key : ∀ c ∈ (finish lib 1 false false (input_calls lib)).calls,
      c ≠ Call.avformat_alloc_output_context2 o ∧ c ≠ Call.avformat_new_stream o
        ∧ c ≠ Call.avio_open o ∧ c ≠ Call.avformat_write_header o := by
    intro c hc
    simp only [finish, cleanup, input_calls, Bool.false_and, Bool.false_eq_true, if_false,
      List.append_nil, List.mem_append, List.mem_cons, List.mem_singleton,
      List.not_mem_nil, or_false] at hc
    rcases hc with ((hc | hc) | hc) | hc
    · rcases hc with hc | hc | hc <;> subst hc <;> simp
    · rcases open_codec_context_calls lib _ _ c hc with h | h | h | h <;> subst h <;> simp
    · rcases open_codec_context_calls lib _ _ c hc with h | h | h | h <;> subst h <;> simp
    · rcases hc with (hc | hc | hc) | hc | hc <;> subst hc <;> simp
  exact ⟨fun h => (key _ h).1 rfl, fun h => (key _ h).2.1 rfl, fun h => (key _ h).2.2.1 rfl,
    fun h => (key _ h).2.2.2 rfl⟩

/-- The run `lib_no_streams` (neither kind of stream is found) ends with exit
status 0 without any output container call. -/
theorem main_no_streams_exit_status_witness :
    (open_codec_context lib_no_streams (-1) .video).ret < 0
      ∧ (open_codec_context lib_no_streams (-1) .audio).ret < 0
      ∧ (main lib_no_streams 4).outcome = .exit 0 :=
  ⟨by decide, by decide,
    (main_no_streams_exit_status lib_no_streams 4 (by decide) (by decide) (by decide)
      (by decide) (by decide)).1⟩

/-! ## C3: input with a video stream and no audio stream -/

/-- C3 (as the code behaves): when the video stream is selected, the audio
selection fails and every library call on the outputs would succeed, `main`
allocates the audio output context and then evaluates
`audio_in_stream->codec->codec` (line 221) with `audio_in_stream` null: the run
ends there, before any packet is read, any trailer is written or any exit
status is returned. -/
theorem main_video_only_null_deref (lib : Lib) (argc : Int)
    (hargc : argc = 4 ∨ argc = 5) (hopen : 0 ≤ lib.avformat_open_input)
    (hinfo : 0 ≤ lib.avformat_find_stream_info)
    (hv : 0 ≤ (open_codec_context lib (-1) .video).ret)
    (ha : (open_codec_context lib (-1) .audio).ret < 0)
    (hov : output_ok lib .video) (hoa : output_ok lib .audio) :
    main lib argc =
      ⟨.null_deref, input_calls lib ++ output_calls lib .video
        ++ [.avformat_alloc_output_context2 .audio]⟩ := by
  have hargc2 : ¬ (argc ≠ 4 ∧ argc ≠ 5) := by omega
  have hb : build_output lib .audio none
      = .null_deref [.avformat_alloc_output_context2 .audio] := by
    simp [build_output, hoa.1]
  unfold main main_outputs
  simp only [hargc2, not_lt.mpr hopen, not_lt.mpr hinfo, if_false, ge_iff_le, hv,
    not_le.mpr ha, if_true, Option.isNone_some, Option.isNone_none, Bool.false_eq_true,
    and_false, build_output_of_ok lib _ _ hov, hb]

/-- The run `lib_video_only` (video stream 0, no audio stream, every output
call succeeds) ends in the null dereference, not with exit status 0. -/
theorem main_video_only_null_deref_witness :
    (open_codec_context lib_video_only (-1) .audio).ret < 0
      ∧ (open_codec_context lib_video_only (-1) .audio).stream_idx = -1
      ∧ (main lib_video_only 4).outcome = .null_deref
      ∧ Call.av_write_trailer .audio ∉ (main lib_video_only 4).calls :=
  ⟨by decide, by decide,
    by rw [main_video_only_null_deref lib_video_only 4 (by decide) (by decide) (by decide)
      (by decide) (by decide) (by decide) (by decide)],
    by decide⟩

/-! ## C7: argument count -/

/-- C7, the claim as stated fails: with four user arguments (`argc = 5`, which
is not 4) and the sample library behaviour, `main` opens the input. -/
theorem main_argc_five_opens_input :
    (5 : Int) ≠ 4 ∧ Call.avformat_open_input ∈ (main sample_lib 5).calls := by
  decide

/-- C7 (amended): when `argc` is neither 4 nor 5 (the number of user arguments
is neither three nor four), `main` exits with status 1 without making any
library call, so without any I/O on the input or the outputs. -/
theorem main_usage_error (lib : Lib) (argc : Int) (h4 : argc ≠ 4) (h5 : argc ≠ 5) :
    main lib argc = ⟨.exit 1, []⟩ := by
  unfold main
  simp [h4, h5]

/-- With two user arguments (`argc = 3`) the sample run exits with status 1 and
makes no call. -/
theorem main_usage_error_witness :
    (3 : Int) ≠ 4 ∧ (3 : Int) ≠ 5 ∧ main sample_lib 3 = ⟨.exit 1, []⟩ :=
  ⟨by decide, by decide, main_usage_error sample_lib 3 (by decide) (by decide)⟩

/-- The guard of line 124 accepts `argc = 5` as it accepts `argc = 4`, and
nothing after it reads `argc` or `argv[4]`: both runs are the same. -/
theorem main_argc_five_as_four (lib : Lib) : main lib 5 = main lib 4 := by
  unfold main
  simp

/-! ## C10: release of the input container -/

/-- Every arrival at the label `end` closes the input container. -/
theorem finish_closes_input (lib : Lib) (ret : Int) (v a : Bool) (pre : List Call) :
    Call.avformat_close_input ∈ (finish lib ret v a pre).calls := by
  simp [finish, cleanup]

/-- The output phase closes the input container unless it ends in a null
dereference. -/
theorem main_outputs_closes_input (lib : Lib) (v a : Option AVStream)
    (hn : (main_outputs lib v a).outcome ≠ .null_deref) :
    Call.avformat_close_input ∈ (main_outputs lib v a).calls := by
  unfold main_outputs at hn ⊢
  cases hv : build_output lib .video v with
  | null_deref c => simp [hv] at hn
  | fail ret ctx c => simp only [hv]; exact finish_closes_input _ _ _ _ _
  | ok cv =>
    cases ha : build_output lib .audio a with
    | null_deref c => simp [hv, ha] at hn
    | fail ret ctx c => simp only [hv, ha]; exact finish_closes_input _ _ _ _ _
    | ok ca =>
      simp only [hv, ha]
      split_ifs <;> exact finish_closes_input _ _ _ _ _

/-- Every run that opens the input, obtains the stream information and does
not end in a null dereference closes the input container: all those paths go
through the label `end`. -/
theorem main_closes_input (lib : Lib) (argc : Int) (hargc : argc = 4 ∨ argc = 5)
    (hopen : 0 ≤ lib.avformat_open_input) (hinfo : 0 ≤ lib.avformat_find_stream_info)
    (hn : (main lib argc).outcome ≠ .null_deref) :
    Call.avformat_close_input ∈ (main lib argc).calls := by
  have hargc2 : ¬ (argc ≠ 4 ∧ argc ≠ 5) := by omega
  unfold main at hn ⊢
  simp only [hargc2, not_lt.mpr hopen, not_lt.mpr hinfo, if_false] at hn ⊢
  split_ifs at hn ⊢
  all_goals first
    | exact finish_closes_input _ _ _ _ _
    | exact main_outputs_closes_input _ _ _ hn

/-- C10 (as the code behaves): when the input is opened and
`avformat_find_stream_info` fails, `main` calls `exit(1)` at line 156: the run
ends with the input container opened and never closed. -/
theorem main_stream_info_failure_leaves_input_open (lib : Lib) (argc : Int)
    (hargc : argc = 4 ∨ argc = 5) (hopen : 0 ≤ lib.avformat_open_input)
    (hinfo : lib.avformat_find_stream_info < 0) :
    (main lib argc).outcome = .exit 1
      ∧ Call.avformat_open_input ∈ (main lib argc).calls
      ∧ Call.avformat_close_input ∉ (main lib argc).calls := by
  have hargc2 : ¬ (argc ≠ 4 ∧ argc ≠ 5) := by omega
  have hm : main lib argc
      = ⟨.exit 1, [.av_register_all, .avformat_open_input, .avformat_find_stream_info]⟩ := by
    unfold main
    simp only [hargc2, not_lt.mpr hopen, hinfo, if_false, if_true]
  rw [hm]
  simp

/-- The run `lib_no_stream_info` opens the input, fails to find the stream
information and exits without closing the input. -/
theorem main_stream_info_failure_leaves_input_open_witness :
    0 ≤ lib_no_stream_info.avformat_open_input
      ∧ lib_no_stream_info.avformat_find_stream_info < 0
      ∧ Call.avformat_open_input ∈ (main lib_no_stream_info 4).calls
      ∧ Call.avformat_close_input ∉ (main lib_no_stream_info 4).calls :=
  ⟨by decide, by decide,
    (main_stream_info_failure_leaves_input_open lib_no_stream_info 4 (by decide) (by decide)
      (by decide)).2⟩

/-! ## C8: failure of an output-side setup step -/

theorem not_output_ok_of_step_fails (lib : Lib) (o : AVMediaType)
    (h : output_step_fails lib o) : ¬ output_ok lib o := by
  rintro ⟨h1, h2, h3, h4, h5⟩
  rcases h with h | h | h | ⟨hn, h⟩ | h
  · simp [h1] at h
  · simp [h2] at h
  · omega
  · rcases h4 with h4 | h4
    · simp [hn] at h4
    · omega
  · omega

theorem input_calls_not_loop (lib : Lib) : ∀ c ∈ input_calls lib, is_loop_call c = false := by
  intro c hc
  simp only [input_calls, List.mem_append, List.mem_cons, List.mem_singleton,
    List.not_mem_nil, or_false] at hc
  rcases hc with (hc | hc) | hc
  · rcases hc with hc | hc | hc <;> subst hc <;> rfl
  · rcases open_codec_context_calls lib _ _ c hc with h | h | h | h <;> subst h <;> rfl
  · rcases open_codec_context_calls lib _ _ c hc with h | h | h | h <;> subst h <;> rfl

theorem cleanup_not_loop (lib : Lib) (v a : Bool) :
    ∀ c ∈ cleanup lib v a, is_loop_call c = false := by
  cases v <;> cases a <;> cases hv : lib.nofile .video <;> cases ha : lib.nofile .audio <;>
    simp [cleanup, hv, ha, is_loop_call]

/-- The construction of an output from a non-null input stream either succeeds
with the calls `output_calls`, or ends in a `goto end` with a negative `ret`
after calls that are neither reads nor writes. -/
theorem build_output_some (lib : Lib) (o : AVMediaType) (st : AVStream) :
    build_output lib o (some st) = .ok (output_calls lib o)
      ∨ ∃ ret ctx c, build_output lib o (some st) = .fail ret ctx c ∧ ret < 0
          ∧ ∀ x ∈ c, is_loop_call x = false := by
  cases h1 : lib.avformat_alloc_output_context2 o
  · exact Or.inr ⟨AVERROR_UNKNOWN, false, [.avformat_alloc_output_context2 o],
      by simp [build_output, h1], by decide, by simp [is_loop_call]⟩
  cases h2 : lib.avformat_new_stream o
  · exact Or.inr ⟨AVERROR_UNKNOWN, true,
      [.avformat_alloc_output_context2 o, .avformat_new_stream o],
      by simp [build_output, h1, h2], by decide, by simp [is_loop_call]⟩
  by_cases h3 : lib.avcodec_copy_context o < 0
  · exact Or.inr ⟨lib.avcodec_copy_context o, true,
      [.avformat_alloc_output_context2 o, .avformat_new_stream o, .avcodec_copy_context o],
      by simp [build_output, h1, h2, h3], h3, by simp [is_loop_call]⟩
  cases h4 : lib.nofile o
  · by_cases h5 : lib.avio_open o < 0
    · exact Or.inr ⟨lib.avio_open o, true,
        [.avformat_alloc_output_context2 o, .avformat_new_stream o, .avcodec_copy_context o,
         .avio_open o],
        by simp [build_output, h1, h2, h3, h4, h5], h5, by simp [is_loop_call]⟩
    · exact Or.inl (by simp [build_output, output_calls, h1, h2, h3, h4, h5])
  · exact Or.inl (by simp [build_output, output_calls, h1, h2, h3, h4])

theorem output_calls_not_loop (lib : Lib) (o : AVMediaType) :
    ∀ c ∈ output_calls lib o, is_loop_call c = false := by
  cases h : lib.nofile o <;> simp [output_calls, h, is_loop_call]

theorem build_output_ok_iff (lib : Lib) (o : AVMediaType) (st : AVStream) (c : List Call)
    (h : build_output lib o (some st) = .ok c) :
    c = output_calls lib o ∧ lib.avformat_alloc_output_context2 o = true
      ∧ lib.avformat_new_stream o = true ∧ 0 ≤ lib.avcodec_copy_context o
      ∧ (lib.nofile o = true ∨ 0 ≤ lib.avio_open o) := by
  cases h1 : lib.avformat_alloc_output_context2 o
  · simp [build_output, h1] at h
  cases h2 : lib.avformat_new_stream o
  · simp [build_output, h1, h2] at h
  by_cases h3 : lib.avcodec_copy_context o < 0
  · simp [build_output, h1, h2, h3] at h
  cases h4 : lib.nofile o
  · by_cases h5 : lib.avio_open o < 0
    · simp [build_output, h1, h2, h3, h4, h5] at h
    · simp [build_output, h1, h2, h3, h4, h5] at h
      exact ⟨by simp [output_calls, h4, h], rfl, rfl, by omega, Or.inr (by omega)⟩
  · simp [build_output, h1, h2, h3, h4] at h
    exact ⟨by simp [output_calls, h4, h], rfl, rfl, by omega, Or.inl rfl⟩

/-- With both input streams non-null, the output phase either runs the packet
loop (every output step succeeded) or returns exit status 1 without a packet
read or write. -/
theorem main_outputs_some (lib : Lib) (sv sa : AVStream) :
    (output_ok lib .video ∧ output_ok lib .audio)
      ∨ ((main_outputs lib (some sv) (some sa)).outcome = .exit 1
          ∧ ∀ c ∈ (main_outputs lib (some sv) (some sa)).calls, is_loop_call c = false) := by
  unfold main_outputs
  cases hv : build_output lib .video (some sv) with
  | null_deref c => simp [build_output] at hv; split_ifs at hv
  | fail ret ctx c =>
    rcases build_output_some lib .video sv with h | ⟨r, x, c2, h, hr, hc⟩
    · rw [hv] at h; cases h
    · rw [hv] at h; cases h
      refine Or.inr ⟨by simp [finish, hr], ?_⟩
      intro y hy
      simp only [finish, List.mem_append] at hy
      rcases hy with (hy | hy) | hy
      · exact input_calls_not_loop lib y hy
      · exact hc y hy
      · exact cleanup_not_loop lib _ _ y hy
  | ok cv =>
    obtain ⟨hcv, v1, v2, v3, v4⟩ := build_output_ok_iff lib .video sv cv hv
    cases ha : build_output lib .audio (some sa) with
    | null_deref c => simp [build_output] at ha; split_ifs at ha
    | fail ret ctx c =>
      rcases build_output_some lib .audio sa with h | ⟨r, x, c2, h, hr, hc⟩
      · rw [ha] at h; cases h
      · rw [ha] at h; cases h
        refine Or.inr ⟨by simp [finish, hr], ?_⟩
        intro y hy
        simp only [finish, List.mem_append] at hy
        rcases hy with ((hy | hy) | hy) | hy
        · exact input_calls_not_loop lib y hy
        · exact output_calls_not_loop lib .video y (hcv ▸ hy)
        · exact hc y hy
        · exact cleanup_not_loop lib _ _ y hy
    | ok ca =>
      obtain ⟨hca, a1, a2, a3, a4⟩ := build_output_ok_iff lib .audio sa ca ha
      simp only
      by_cases hh : lib.avformat_write_header .video < 0
      · refine Or.inr ⟨by simp [finish, hh], ?_⟩
        intro y hy
        simp only [hh, if_true, finish, List.mem_append, List.mem_singleton] at hy
        rcases hy with (((hy | hy) | hy) | hy) | hy
        · exact input_calls_not_loop lib y hy
        · exact output_calls_not_loop lib .video y (hcv ▸ hy)
        · exact output_calls_not_loop lib .audio y (hca ▸ hy)
        · subst hy; rfl
        · exact cleanup_not_loop lib _ _ y hy
      · by_cases hg : lib.avformat_write_header .audio < 0
        · refine Or.inr ⟨by simp [finish, hh, hg], ?_⟩
          intro y hy
          simp only [hh, hg, if_true, if_false, finish, List.mem_append, List.mem_cons,
            List.mem_singleton, List.not_mem_nil, or_false] at hy
          rcases hy with (((hy | hy) | hy) | hy) | hy
          · exact input_calls_not_loop lib y hy
          · exact output_calls_not_loop lib .video y (hcv ▸ hy)
          · exact output_calls_not_loop lib .audio y (hca ▸ hy)
          · rcases hy with hy | hy <;> subst hy <;> rfl
          · exact cleanup_not_loop lib _ _ y hy
        · exact Or.inl ⟨⟨v1, v2, v3, v4, by omega⟩, ⟨a1, a2, a3, a4, by omega⟩⟩

/-- C8: when both input streams are selected and some output-side setup step
fails (context creation, stream allocation, codec-parameter copy, file open or
header write, for the video or the audio output), `main` never calls
`av_read_frame`, never writes a packet, and returns exit status 1. -/
theorem output_setup_failure_aborts (lib : Lib) (argc : Int) (hin : input_ok lib argc)
    (hfail : output_step_fails lib .video ∨ output_step_fails lib .audio) :
    (main lib argc).outcome = .exit 1
      ∧ Call.av_read_frame ∉ (main lib argc).calls
      ∧ ∀ o n pkt, Call.av_interleaved_write_frame o n pkt ∉ (main lib argc).calls := by
  obtain ⟨hargc, hopen, hinfo, hv, ha⟩ := hin
  have hargc2 : ¬ (argc ≠ 4 ∧ argc ≠ 5) := by omega
  have hm : main lib argc
      = main_outputs lib (some (lib.streams (open_codec_context lib (-1) .video).stream_idx))
          (some (lib.streams (open_codec_context lib (-1) .audio).stream_idx)) := by
    unfold main
    simp only [hargc2, not_lt.mpr hopen, not_lt.mpr hinfo, if_false, ge_iff_le, hv, ha,
      if_true, Option.isNone_some, Bool.false_eq_true, and_self]
  rw [hm]
  rcases main_outputs_some lib (lib.streams (open_codec_context lib (-1) .video).stream_idx)
    (lib.streams (open_codec_context lib (-1) .audio).stream_idx) with ⟨h1, h2⟩ | ⟨h1, h2⟩
  · rcases hfail with hf | hf
    · exact absurd h1 (not_output_ok_of_step_fails lib _ hf)
    · exact absurd h2 (not_output_ok_of_step_fails lib _ hf)
  · refine ⟨h1, fun hmem => ?_, fun o n pkt hmem => ?_⟩
    · simpa [is_loop_call] using h2 _ hmem
    · simpa [is_loop_call] using h2 _ hmem

/-- The run `lib_video_open_fails` selects both streams, fails to open the
video destination, reads and writes nothing and returns 1. -/
theorem output_setup_failure_aborts_witness :
    input_ok lib_video_open_fails 4 ∧ output_step_fails lib_video_open_fails .video
      ∧ (main lib_video_open_fails 4).outcome = .exit 1
      ∧ Call.av_read_frame ∉ (main lib_video_open_fails 4).calls :=
  ⟨by decide, by decide,
    (output_setup_failure_aborts lib_video_open_fails 4 (by decide) (Or.inl (by decide))).1,
    (output_setup_failure_aborts lib_video_open_fails 4 (by decide) (Or.inl (by decide))).2.1⟩

/-! ## C9: packets of other streams -/

/-- C9: a packet whose source stream index is neither `video_in_stream_idx` nor
`audio_in_stream_idx` goes through the loop body without any library call (no
write on either output) and without leaving the loop: the calls of the loop are
the read of that packet followed by the calls of the loop on the packets that
come after it, and `ret` at the end of the loop is the one those produce. -/
theorem unrouted_packet_is_discarded (lib : Lib) (s : Session) (n : Nat) (pkt : AVPacket)
    (rest : List AVPacket) (hv : pkt.stream_index ≠ s.video_in_stream_idx)
    (ha : pkt.stream_index ≠ s.audio_in_stream_idx) :
    loop_body lib s n pkt = (none, [])
      ∧ read_loop lib s n (pkt :: rest)
          = ((read_loop lib s (n + 1) rest).1,
             Call.av_read_frame :: (read_loop lib s (n + 1) rest).2) := by
  have hb : loop_body lib s n pkt = (none, []) := by
    simp [loop_body, audio_branch, hv, ha]
  refine ⟨hb, ?_⟩
  rw [read_loop, hb]
  simp

/-- In the sample run the third packet belongs to stream 2, which is neither
selected stream: its iteration makes no call. -/
theorem unrouted_packet_is_discarded_witness :
    (sample_packet 2 0 30).stream_index ≠ (session sample_lib).video_in_stream_idx
      ∧ (sample_packet 2 0 30).stream_index ≠ (session sample_lib).audio_in_stream_idx
      ∧ loop_body sample_lib (session sample_lib) 2 (sample_packet 2 0 30) = (none, []) :=
  ⟨by decide, by decide,
    (unrouted_packet_is_discarded sample_lib (session sample_lib) 2 (sample_packet 2 0 30) []
      (by decide) (by decide)).1⟩

/-! ## C6: the unset timestamp -/

theorem av_rescale_q_rnd_nopts (bq cq : AVRational) :
    av_rescale_q_rnd AV_NOPTS_VALUE bq cq = AV_NOPTS_VALUE := by
  simp [av_rescale_q_rnd]

/-- C6: for time bases with positive denominators, a packet of the video
stream (respectively of the audio stream) is handed to the video (respectively
audio) writer in its loop iteration, and the packet the writer receives has pts
`AV_NOPTS_VALUE` whenever the packet read has pts `AV_NOPTS_VALUE`, and dts
`AV_NOPTS_VALUE` whenever the packet read has dts `AV_NOPTS_VALUE`. -/
theorem nopts_passes_through (lib : Lib) (s : Session) (n : Nat) (pkt : AVPacket)
    (_hvi : 0 < s.video_in_stream.time_base.den) (_hvo : 0 < s.video_out_stream.time_base.den)
    (_hai : 0 < s.audio_in_stream.time_base.den) (_hao : 0 < s.audio_out_stream.time_base.den) :
    (pkt.stream_index = s.video_in_stream_idx →
        (∃ w, Call.av_interleaved_write_frame .video n w ∈ (loop_body lib s n pkt).2)
        ∧ ∀ w, Call.av_interleaved_write_frame .video n w ∈ (loop_body lib s n pkt).2 →
            (pkt.pts = AV_NOPTS_VALUE → w.pts = AV_NOPTS_VALUE)
            ∧ (pkt.dts = AV_NOPTS_VALUE → w.dts = AV_NOPTS_VALUE))
    ∧ (pkt.stream_index ≠ s.video_in_stream_idx → pkt.stream_index = s.audio_in_stream_idx →
        (∃ w, Call.av_interleaved_write_frame .audio n w ∈ (loop_body lib s n pkt).2)
        ∧ ∀ w, Call.av_interleaved_write_frame .audio n w ∈ (loop_body lib s n pkt).2 →
            (pkt.pts = AV_NOPTS_VALUE → w.pts = AV_NOPTS_VALUE)
            ∧ (pkt.dts = AV_NOPTS_VALUE → w.dts = AV_NOPTS_VALUE)) := by
  constructor
  · intro hv
    constructor
    · refine ⟨remux lib s.video_in_stream s.video_out_stream pkt, ?_⟩
      unfold loop_body
      simp only [hv, if_true]
      split_ifs <;> simp
    · intro w hw
      have hw2 : w = remux lib s.video_in_stream s.video_out_stream pkt := by
        unfold loop_body at hw
        simp only [hv, if_true] at hw
        split_ifs at hw
        · simpa using hw
        · simp only [List.cons_append, List.nil_append, List.mem_cons, Call.av_interleaved_write_frame.injEq,
            true_and, reduceCtorEq, false_or] at hw
          rcases hw with hw | hw
          · exact hw
          · unfold audio_branch at hw
            simp only at hw
            split_ifs at hw <;> simp at hw
      subst hw2
      constructor
      · intro h; simp [remux, h, av_rescale_q_rnd_nopts]
      · intro h; simp [remux, h, av_rescale_q_rnd_nopts]
  · intro hv ha
    have hb : loop_body lib s n pkt = audio_branch lib s n pkt := by
      simp [loop_body, hv]
    rw [hb]
    constructor
    · refine ⟨remux lib s.audio_in_stream s.audio_out_stream pkt, ?_⟩
      unfold audio_branch
      simp only [ha, if_true]
      split_ifs <;> simp
    · intro w hw
      have hw2 : w = remux lib s.audio_in_stream s.audio_out_stream pkt := by
        unfold audio_branch at hw
        simp only [ha, if_true] at hw
        split_ifs at hw <;> simpa using hw
      subst hw2
      constructor
      · intro h; simp [remux, h, av_rescale_q_rnd_nopts]
      · intro h; simp [remux, h, av_rescale_q_rnd_nopts]

/-- In the sample session a video packet without pts and dts is handed to the
video writer without pts and dts. -/
theorem nopts_passes_through_witness :
    0 < (session sample_lib).video_in_stream.time_base.den
      ∧ 0 < (session sample_lib).video_out_stream.time_base.den
      ∧ Call.av_interleaved_write_frame .video 0
          { pts := AV_NOPTS_VALUE, dts := AV_NOPTS_VALUE, duration := 1, pos := -1,
            stream_index := 0, data := [7] }
        ∈ (loop_body sample_lib (session sample_lib) 0
            (sample_packet 0 AV_NOPTS_VALUE 7)).2
      ∧ ∃ w, Call.av_interleaved_write_frame .video 0 w
          ∈ (loop_body sample_lib (session sample_lib) 0
              (sample_packet 0 AV_NOPTS_VALUE 7)).2 :=
  ⟨by decide, by decide, by decide,
    ((nopts_passes_through sample_lib (session sample_lib) 0 (sample_packet 0 AV_NOPTS_VALUE 7)
      (by decide) (by decide) (by decide) (by decide)).1 (by decide)).1⟩

/-! ## C5: order of the writes -/

theorem audio_branch_write_origin (lib : Lib) (s : Session) (n : Nat) (pkt : AVPacket)
    (o : AVMediaType) (m : Nat) (w : AVPacket)
    (h : Call.av_interleaved_write_frame o m w ∈ (audio_branch lib s n pkt).2) : m = n := by
  unfold audio_branch at h
  simp only at h
  split_ifs at h <;> simp at h <;> exact h.2.1

/-- Every write made in the iteration of packet number `n` carries `n`. -/
theorem loop_body_write_origin (lib : Lib) (s : Session) (n : Nat) (pkt : AVPacket)
    (o : AVMediaType) (m : Nat) (w : AVPacket)
    (h : Call.av_interleaved_write_frame o m w ∈ (loop_body lib s n pkt).2) : m = n := by
  unfold loop_body at h
  simp only at h
  split_ifs at h
  · simp at h; exact h.2.1
  · simp only [List.cons_append, List.nil_append, List.mem_cons,
      Call.av_interleaved_write_frame.injEq, reduceCtorEq, false_or] at h
    rcases h with h | h
    · exact h.2.1
    · exact audio_branch_write_origin _ _ _ _ _ _ _ h
  · exact audio_branch_write_origin _ _ _ _ _ _ _ h

/-- The loop started at packet number `n` makes no write that carries a
smaller number. -/
theorem read_loop_write_origin (lib : Lib) (s : Session) (o : AVMediaType) (m : Nat)
    (w : AVPacket) (pkts : List AVPacket) (n : Nat)
    (h : Call.av_interleaved_write_frame o m w ∈ (read_loop lib s n pkts).2) : n ≤ m := by
  induction pkts generalizing n with
  | nil => simp [read_loop] at h
  | cons pkt rest ih =>
    unfold read_loop at h
    split at h
    · next ret calls hb =>
      simp only [List.mem_cons, reduceCtorEq, false_or] at h
      have := loop_body_write_origin lib s n pkt o m w (by rw [hb]; exact h)
      omega
    · next calls hb =>
      simp only [List.mem_cons, reduceCtorEq, false_or, List.mem_append] at h
      rcases h with h | h
      · have := loop_body_write_origin lib s n pkt o m w (by rw [hb]; exact h)
        omega
      · have := ih (n + 1) h
        omega

/-- A packet of a selected stream is handed to the writer of its output in its
own iteration (the two selected indices being distinct). -/
theorem loop_body_writes_selected (lib : Lib) (s : Session) (n : Nat) (pkt : AVPacket)
    (o : AVMediaType) (hd : s.video_in_stream_idx ≠ s.audio_in_stream_idx)
    (hp : pkt.stream_index = s.in_idx o) :
    Call.av_interleaved_write_frame o n (remux lib (s.in_stream o) (s.out_stream o) pkt)
      ∈ (loop_body lib s n pkt).2 := by
  cases o with
  | video =>
    simp only [Session.in_idx] at hp
    unfold loop_body
    simp only [hp, if_true, Session.in_stream, Session.out_stream]
    split_ifs <;> simp
  | audio =>
    simp only [Session.in_idx] at hp
    have hv : pkt.stream_index ≠ s.video_in_stream_idx := by rw [hp]; exact Ne.symm hd
    have hb : loop_body lib s n pkt = audio_branch lib s n pkt := by
      simp [loop_body, hv]
    rw [hb]
    unfold audio_branch
    simp only [hp, if_true, Session.in_stream, Session.out_stream]
    split_ifs <;> simp

theorem pair_sublist_append {α : Type} (a b : α) (l₁ l₂ : List α) (ha : a ∈ l₁) (hb : b ∈ l₂) :
    List.Sublist [a, b] (l₁ ++ l₂) :=
  List.Sublist.append (List.singleton_sublist.mpr ha) (List.singleton_sublist.mpr hb)

/-- Order of the writes inside the loop: when the packets at positions `i < j`
of the remaining input both carry the source index routed to output `o` and
the write of the later one to `o` is among the calls of the loop, the write of
the earlier one to `o` is among them too and comes first. -/
theorem read_loop_preserves_order (lib : Lib) (s : Session) (o : AVMediaType)
    (hd : s.video_in_stream_idx ≠ s.audio_in_stream_idx) (wq : AVPacket) :
    ∀ (pkts : List AVPacket) (n i j : Nat) (p : AVPacket), i < j → pkts[i]? = some p →
      p.stream_index = s.in_idx o →
      Call.av_interleaved_write_frame o (n + j) wq ∈ (read_loop lib s n pkts).2 →
      List.Sublist
        [Call.av_interleaved_write_frame o (n + i)
           (remux lib (s.in_stream o) (s.out_stream o) p),
         Call.av_interleaved_write_frame o (n + j) wq]
        (read_loop lib s n pkts).2 := by
  intro pkts
  induction pkts with
  | nil => intro n i j p _ hp; simp at hp
  | cons pkt rest ih =>
    intro n i j p hij hp hpi hw
    unfold read_loop at hw ⊢
    split at hw
    · next ret calls hb =>
      simp only [hb]
      simp only [List.mem_cons, reduceCtorEq, false_or] at hw
      have := loop_body_write_origin lib s n pkt o (n + j) wq (by rw [hb]; exact hw)
      omega
    · next calls hb =>
      simp only [hb]
      simp only [List.mem_cons, reduceCtorEq, false_or, List.mem_append] at hw
      have hw2 : Call.av_interleaved_write_frame o (n + j) wq
          ∈ (read_loop lib s (n + 1) rest).2 := by
        rcases hw with hw | hw
        · have := loop_body_write_origin lib s n pkt o (n + j) wq (by rw [hb]; exact hw)
          omega
        · exact hw
      cases i with
      | zero =>
        simp only [List.getElem?_cons_zero, Option.some.injEq] at hp
        subst hp
        have h1 := loop_body_writes_selected lib s n pkt o hd hpi
        rw [hb] at h1
        exact List.Sublist.cons _ (pair_sublist_append _ _ _ _ h1 hw2)
      | succ i =>
        cases j with
        | zero => omega
        | succ j =>
          simp only [List.getElem?_cons_succ] at hp
          have hw3 : Call.av_interleaved_write_frame o (n + 1 + j) wq
              ∈ (read_loop lib s (n + 1) rest).2 := by
            have e : n + 1 + j = n + (j + 1) := by omega
            rw [e]; exact hw2
          have h2 := ih (n + 1) i j p (by omega) hp hpi hw3
          have e1 : n + 1 + i = n + (i + 1) := by omega
          have e2 : n + 1 + j = n + (j + 1) := by omega
          rw [e1, e2] at h2
          exact List.Sublist.cons _ (List.Sublist.trans h2 (List.sublist_append_right _ _))

theorem build_output_none (lib : Lib) (o : AVMediaType) :
    build_output lib o none = .fail AVERROR_UNKNOWN false [.avformat_alloc_output_context2 o]
      ∨ build_output lib o none = .null_deref [.avformat_alloc_output_context2 o] := by
  cases h : lib.avformat_alloc_output_context2 o <;> simp [build_output, h]

theorem finish_not_loop (lib : Lib) (ret : Int) (v a : Bool) (pre : List Call)
    (hpre : ∀ c ∈ pre, is_loop_call c = false) :
    ∀ c ∈ (finish lib ret v a pre).calls, is_loop_call c = false := by
  intro c hc
  simp only [finish, List.mem_append] at hc
  rcases hc with hc | hc
  · exact hpre c hc
  · exact cleanup_not_loop lib _ _ c hc

/-- With a null input stream the output phase makes no packet read and no
packet write. -/
theorem main_outputs_none (lib : Lib) (v a : Option AVStream) (h : v = none ∨ a = none) :
    ∀ c ∈ (main_outputs lib v a).calls, is_loop_call c = false := by
  have hone : ∀ o, is_loop_call (Call.avformat_alloc_output_context2 o) = false :=
    fun _ => rfl
  cases v with
  | none =>
    unfold main_outputs
    rcases build_output_none lib .video with hb | hb <;> rw [hb] <;> simp only
    · apply finish_not_loop
      intro c hc
      simp only [List.mem_append, List.mem_singleton] at hc
      rcases hc with hc | hc
      · exact input_calls_not_loop lib c hc
      · subst hc; rfl
    · intro c hc
      simp only [List.mem_append, List.mem_singleton] at hc
      rcases hc with hc | hc
      · exact input_calls_not_loop lib c hc
      · subst hc; rfl
  | some sv =>
    have ha : a = none := by simpa using h
    subst ha
    unfold main_outputs
    rcases build_output_some lib .video sv with hb | ⟨r, x, c2, hb, _, hc2⟩ <;> rw [hb] <;>
      simp only
    · rcases build_output_none lib .audio with hb2 | hb2 <;> rw [hb2] <;> simp only
      · apply finish_not_loop
        intro c hc
        simp only [List.mem_append, List.mem_singleton] at hc
        rcases hc with (hc | hc) | hc
        · exact input_calls_not_loop lib c hc
        · exact output_calls_not_loop lib .video c hc
        · subst hc; rfl
      · intro c hc
        simp only [List.mem_append, List.mem_singleton] at hc
        rcases hc with (hc | hc) | hc
        · exact input_calls_not_loop lib c hc
        · exact output_calls_not_loop lib .video c hc
        · subst hc; rfl
    · apply finish_not_loop
      intro c hc
      simp only [List.mem_append] at hc
      rcases hc with hc | hc
      · exact input_calls_not_loop lib c hc
      · exact hc2 c hc

/-- A run whose setup does not succeed makes no packet read and no packet
write. -/
theorem main_not_loop_of_not_setup_ok (lib : Lib) (argc : Int) (h : ¬ setup_ok lib argc) :
    ∀ c ∈ (main lib argc).calls, is_loop_call c = false := by
  unfold main
  by_cases h1 : argc ≠ 4 ∧ argc ≠ 5
  · simp [h1]
  by_cases h2 : lib.avformat_open_input < 0
  · simp [h1, h2, is_loop_call]
  by_cases h3 : lib.avformat_find_stream_info < 0
  · simp [h1, h2, h3, is_loop_call]
  simp only [h1, h2, h3, if_false]
  by_cases hv : (open_codec_context lib (-1) .video).ret ≥ 0
  · by_cases ha : (open_codec_context lib (-1) .audio).ret ≥ 0
    · simp only [hv, ha, if_true, Option.isNone_some, Bool.false_eq_true, and_self, if_false]
      rcases main_outputs_some lib
        (lib.streams (open_codec_context lib (-1) .video).stream_idx)
        (lib.streams (open_codec_context lib (-1) .audio).stream_idx) with hok | hno
      · exact absurd ⟨⟨by omega, by omega, by omega, hv, ha⟩, hok.1, hok.2⟩ h
      · exact hno.2
    · simp only [hv, ha, if_true, if_false, Option.isNone_some, Bool.false_eq_true,
        and_false]
      exact main_outputs_none lib _ _ (Or.inr rfl)
  · by_cases ha : (open_codec_context lib (-1) .audio).ret ≥ 0
    · simp only [hv, ha, if_true, if_false, Option.isNone_some, Bool.false_eq_true,
        false_and]
      exact main_outputs_none lib _ _ (Or.inl rfl)
    · simp only [hv, ha, if_false, Option.isNone_none, and_self, if_true]
      exact finish_not_loop lib _ _ _ _ (input_calls_not_loop lib)

/-- Order of the writes in a whole run, given that the later write was made:
for packets at positions `i < j` that carry the source index routed to `o`, if
the write of the later one to `o` is among the calls of `main`, the write of
the earlier one is among them too and precedes it. -/
theorem main_write_precedes (lib : Lib) (argc : Int) (o : AVMediaType) (i j : Nat)
    (p q : AVPacket)
    (hd : (session lib).video_in_stream_idx ≠ (session lib).audio_in_stream_idx)
    (hij : i < j) (hp : lib.packets[i]? = some p) (hpi : p.stream_index = (session lib).in_idx o)
    (hw : Call.av_interleaved_write_frame o j
            (remux lib ((session lib).in_stream o) ((session lib).out_stream o) q)
          ∈ (main lib argc).calls) :
    List.Sublist
      [Call.av_interleaved_write_frame o i
         (remux lib ((session lib).in_stream o) ((session lib).out_stream o) p),
       Call.av_interleaved_write_frame o j
         (remux lib ((session lib).in_stream o) ((session lib).out_stream o) q)]
      (main lib argc).calls := by
  by_cases hs : setup_ok lib argc
  · rw [main_of_setup_ok lib argc hs] at hw ⊢
    simp only [finish, List.mem_append] at hw
    have hloop : Call.av_interleaved_write_frame o (0 + j)
          (remux lib ((session lib).in_stream o) ((session lib).out_stream o) q)
        ∈ (read_loop lib (session lib) 0 lib.packets).2 := by
      rw [Nat.zero_add]
      rcases hw with ((((((hw | hw) | hw) | hw) | hw) | hw)) | hw
      · simpa [is_loop_call] using input_calls_not_loop lib _ hw
      · simpa [is_loop_call] using output_calls_not_loop lib _ _ hw
      · simpa [is_loop_call] using output_calls_not_loop lib _ _ hw
      · simp at hw
      · exact hw
      · simp at hw
      · simpa [is_loop_call] using cleanup_not_loop lib _ _ _ hw
    have hsub := read_loop_preserves_order lib (session lib) o hd _ lib.packets 0 i j p hij hp
      hpi hloop
    simp only [Nat.zero_add] at hsub
    simp only [finish]
    exact ((hsub.trans (List.sublist_append_right _ _)).trans
      (List.sublist_append_left _ _)).trans (List.sublist_append_left _ _)
  · have := main_not_loop_of_not_setup_ok lib argc hs _ hw
    simp [is_loop_call] at this

theorem audio_branch_no_break (lib : Lib) (s : Session) (n : Nat) (pkt : AVPacket)
    (hok : ∀ o w, 0 ≤ (lib.av_interleaved_write_frame o n w).1) :
    (audio_branch lib s n pkt).1 = none := by
  unfold audio_branch
  by_cases h : pkt.stream_index = s.audio_in_stream_idx
  · simp [h, not_lt.mpr (hok _ _)]
  · simp [h]

/-- An iteration whose writes succeed does not leave the loop. -/
theorem loop_body_no_break (lib : Lib) (s : Session) (n : Nat) (pkt : AVPacket)
    (hok : ∀ o w, 0 ≤ (lib.av_interleaved_write_frame o n w).1) :
    (loop_body lib s n pkt).1 = none := by
  unfold loop_body
  by_cases h : pkt.stream_index = s.video_in_stream_idx
  · simp only [h, if_true, not_lt.mpr (hok _ _), if_false]
    exact audio_branch_no_break lib s n _ hok
  · simp only [h, if_false]
    exact audio_branch_no_break lib s n pkt hok

/-- A packet of a selected stream reaches its writer: when the packet at
position `j` of the remaining input carries the source index routed to output
`o` and no write fails in the iterations before its own, the loop hands it to
the writer of `o`. -/
theorem read_loop_writes_selected (lib : Lib) (s : Session) (o : AVMediaType)
    (hd : s.video_in_stream_idx ≠ s.audio_in_stream_idx) :
    ∀ (pkts : List AVPacket) (n j : Nat) (q : AVPacket), pkts[j]? = some q →
      q.stream_index = s.in_idx o →
      (∀ o2 m w, m < n + j → 0 ≤ (lib.av_interleaved_write_frame o2 m w).1) →
      Call.av_interleaved_write_frame o (n + j) (remux lib (s.in_stream o) (s.out_stream o) q)
        ∈ (read_loop lib s n pkts).2 := by
  intro pkts
  induction pkts with
  | nil => intro n j q hq; simp at hq
  | cons pkt rest ih =>
    intro n j q hq hqi hok
    cases j with
    | zero =>
      simp only [List.getElem?_cons_zero, Option.some.injEq] at hq
      subst hq
      have h1 := loop_body_writes_selected lib s n pkt o hd hqi
      unfold read_loop
      split
      · next ret calls hb =>
        rw [hb] at h1
        exact List.mem_cons_of_mem _ h1
      · next calls hb =>
        rw [hb] at h1
        exact List.mem_cons_of_mem _ (List.mem_append_left _ h1)
    | succ j =>
      simp only [List.getElem?_cons_succ] at hq
      have hnb := loop_body_no_break lib s n pkt (fun o2 w => hok o2 n w (by omega))
      have h2 := ih (n + 1) j q hq hqi (fun o2 m w hm => hok o2 m w (by omega))
      have e : n + 1 + j = n + (j + 1) := by omega
      rw [e] at h2
      unfold read_loop
      split
      · next ret calls hb => rw [hb] at hnb; simp at hnb
      · next calls hb =>
        exact List.mem_cons_of_mem _ (List.mem_append_right _ h2)

/-- C5: in a run whose setup succeeds, for each of the two outputs `o` and any
two packets `p`, `q` delivered at positions `i < j` that both carry the source
index routed to `o` (the two selected indices being distinct), where `q` is
read, that is, no write fails in the iterations before the one of `q` (in
particular when no write fails at all): both packets are handed to the writer
of `o` (`av_interleaved_write_frame` on that output context), each with
timestamps rescaled, `pos` -1 and stream index 0, and the write of `p` precedes
the write of `q` in the sequence of calls of `main`. -/
theorem main_preserves_read_order (lib : Lib) (argc : Int) (o : AVMediaType) (i j : Nat)
    (p q : AVPacket) (hs : setup_ok lib argc)
    (hd : (session lib).video_in_stream_idx ≠ (session lib).audio_in_stream_idx)
    (hij : i < j) (hp : lib.packets[i]? = some p) (hpi : p.stream_index = (session lib).in_idx o)
    (hq : lib.packets[j]? = some q) (hqi : q.stream_index = (session lib).in_idx o)
    (hok : ∀ o2 n w, n < j → 0 ≤ (lib.av_interleaved_write_frame o2 n w).1) :
    List.Sublist
      [Call.av_interleaved_write_frame o i
         (remux lib ((session lib).in_stream o) ((session lib).out_stream o) p),
       Call.av_interleaved_write_frame o j
         (remux lib ((session lib).in_stream o) ((session lib).out_stream o) q)]
      (main lib argc).calls := by
  have hloop := read_loop_writes_selected lib (session lib) o hd lib.packets 0 j q hq hqi
    (fun o2 m w hm => hok o2 m w (by omega))
  have hsub := read_loop_preserves_order lib (session lib) o hd _ lib.packets 0 i j p hij hp
    hpi hloop
  simp only [Nat.zero_add] at hsub
  rw [main_of_setup_ok lib argc hs]
  simp only [finish]
  exact ((hsub.trans (List.sublist_append_right _ _)).trans
    (List.sublist_append_left _ _)).trans (List.sublist_append_left _ _)

/-- In the sample run the video packets at positions 0 and 3 are written to
the video output in that order, and the audio packets at positions 1 and 4 are
written to the audio output in that order. -/
theorem main_preserves_read_order_witness :
    (setup_ok sample_lib 4
      ∧ (session sample_lib).video_in_stream_idx ≠ (session sample_lib).audio_in_stream_idx
      ∧ sample_lib.packets[0]? = some (sample_packet 0 0 10)
      ∧ sample_lib.packets[3]? = some (sample_packet 0 1 11)
      ∧ sample_lib.packets[1]? = some (sample_packet 1 0 20)
      ∧ sample_lib.packets[4]? = some (sample_packet 1 1000 21))
      ∧ List.Sublist
          [Call.av_interleaved_write_frame .video 0
             (remux sample_lib ((session sample_lib).in_stream .video)
               ((session sample_lib).out_stream .video) (sample_packet 0 0 10)),
           Call.av_interleaved_write_frame .video 3
             (remux sample_lib ((session sample_lib).in_stream .video)
               ((session sample_lib).out_stream .video) (sample_packet 0 1 11))]
          (main sample_lib 4).calls
      ∧ List.Sublist
          [Call.av_interleaved_write_frame .audio 1
             (remux sample_lib ((session sample_lib).in_stream .audio)
               ((session sample_lib).out_stream .audio) (sample_packet 1 0 20)),
           Call.av_interleaved_write_frame .audio 4
             (remux sample_lib ((session sample_lib).in_stream .audio)
               ((session sample_lib).out_stream .audio) (sample_packet 1 1000 21))]
          (main sample_lib 4).calls :=
  ⟨by decide,
    main_preserves_read_order sample_lib 4 .video 0 3 (sample_packet 0 0 10)
      (sample_packet 0 1 11) (by decide) (by decide) (by decide) (by decide) (by decide)
      (by decide) (by decide) (fun _ _ _ _ => Int.le_refl 0),
    main_preserves_read_order sample_lib 4 .audio 1 4 (sample_packet 1 0 20)
      (sample_packet 1 1000 21) (by decide) (by decide) (by decide) (by decide) (by decide)
      (by decide) (by decide) (fun _ _ _ _ => Int.le_refl 0)⟩

/-! ## C4: number of packets written to each output -/

theorem audio_branch_counts (lib : Lib) (s : Session) (n : Nat) (pkt : AVPacket)
    (hok : ∀ o n w, 0 ≤ (lib.av_interleaved_write_frame o n w).1) :
    (audio_branch lib s n pkt).1 = none
      ∧ writes_to .video (audio_branch lib s n pkt).2 = 0
      ∧ writes_to .audio (audio_branch lib s n pkt).2
          = if pkt.stream_index = s.audio_in_stream_idx then 1 else 0 := by
  unfold audio_branch
  by_cases h : pkt.stream_index = s.audio_in_stream_idx
  · simp [h, not_lt.mpr (hok _ _ _), writes_to, is_write]
  · simp [h, writes_to]

theorem loop_body_counts (lib : Lib) (s : Session) (n : Nat) (pkt : AVPacket)
    (hok : ∀ o n w, 0 ≤ (lib.av_interleaved_write_frame o n w).1)
    (hun : ∀ x, (lib.av_packet_unref x).stream_index = 0) :
    (loop_body lib s n pkt).1 = none
      ∧ writes_to .video (loop_body lib s n pkt).2
          = (if pkt.stream_index = s.video_in_stream_idx then 1 else 0)
      ∧ writes_to .audio (loop_body lib s n pkt).2
          = if pkt.stream_index = s.video_in_stream_idx then
              (if s.audio_in_stream_idx = 0 then 1 else 0)
            else if pkt.stream_index = s.audio_in_stream_idx then 1 else 0 := by
  unfold loop_body
  by_cases h : pkt.stream_index = s.video_in_stream_idx
  · simp only [h, if_true, not_lt.mpr (hok _ _ _), if_false]
    obtain ⟨h1, h2, h3⟩ := audio_branch_counts lib s n
      (lib.av_packet_unref (lib.av_interleaved_write_frame .video n
        (remux lib s.video_in_stream s.video_out_stream pkt)).2) hok
    refine ⟨h1, ?_, ?_⟩
    · simp only [writes_to] at h2 ⊢
      simp [List.countP_cons, h2, is_write]
    · simp only [writes_to] at h3 ⊢
      simp only [List.cons_append, List.nil_append, List.countP_cons, h3, hun, is_write]
      simp [eq_comm]
  · simp only [h, if_false]
    exact audio_branch_counts lib s n pkt hok

/-- When no write fails and `av_packet_unref` leaves the stream index 0 (as
libavcodec does), the loop writes one packet to the video output per packet
read with the video index; it writes one packet to the audio output per packet
read with the audio index (other than the video index) and, when the audio
index is 0, one more per packet read with the video index. -/
theorem read_loop_counts (lib : Lib) (s : Session)
    (hok : ∀ o n w, 0 ≤ (lib.av_interleaved_write_frame o n w).1)
    (hun : ∀ x, (lib.av_packet_unref x).stream_index = 0)
    (hd : s.video_in_stream_idx ≠ s.audio_in_stream_idx) (pkts : List AVPacket) (n : Nat) :
    writes_to .video (read_loop lib s n pkts).2 = reads_with s.video_in_stream_idx pkts
      ∧ writes_to .audio (read_loop lib s n pkts).2
          = reads_with s.audio_in_stream_idx pkts
            + if s.audio_in_stream_idx = 0 then reads_with s.video_in_stream_idx pkts else 0 := by
  induction pkts generalizing n with
  | nil => simp [read_loop, writes_to, reads_with, is_write]
  | cons pkt rest ih =>
    obtain ⟨hb1, hb2, hb3⟩ := loop_body_counts lib s n pkt hok hun
    obtain ⟨ih1, ih2⟩ := ih (n + 1)
    have hsplit : read_loop lib s n (pkt :: rest)
        = ((read_loop lib s (n + 1) rest).1,
           Call.av_read_frame :: (loop_body lib s n pkt).2 ++ (read_loop lib s (n + 1) rest).2) := by
      rw [read_loop]
      split
      · next ret calls hb => rw [hb] at hb1; simp at hb1
      · next calls hb => simp [hb]
    rw [hsplit]
    simp only [writes_to, reads_with] at hb2 hb3 ih1 ih2 ⊢
    constructor
    · simp only [List.cons_append, List.countP_cons, List.countP_append, hb2, ih1, is_write,
        decide_eq_true_eq, Bool.false_eq_true, if_false]
      clear hb2 hb3 ih1 ih2
      split_ifs <;> omega
    · simp only [List.cons_append, List.countP_cons, List.countP_append, hb3, ih2, is_write,
        decide_eq_true_eq, Bool.false_eq_true, if_false]
      clear hb2 hb3 ih1 ih2
      split_ifs <;> omega

theorem writes_to_of_not_loop (o : AVMediaType) (l : List Call)
    (h : ∀ c ∈ l, is_loop_call c = false) : writes_to o l = 0 := by
  unfold writes_to
  rw [List.countP_eq_zero]
  intro c hc
  have := h c hc
  cases c <;> simp_all [is_loop_call, is_write]

/-- The write counts of a whole run: when setup succeeds, no write fails,
`av_packet_unref` leaves the stream index 0 and the two selected indices are
distinct, the number of packets written to the video output is the number of
packets read with the video index, and the number written to the audio output
is the number read with the audio index plus, when the audio index is 0, the
number read with the video index. -/
theorem main_write_counts (lib : Lib) (argc : Int) (hs : setup_ok lib argc)
    (hok : ∀ o n w, 0 ≤ (lib.av_interleaved_write_frame o n w).1)
    (hun : ∀ x, (lib.av_packet_unref x).stream_index = 0)
    (hd : (session lib).video_in_stream_idx ≠ (session lib).audio_in_stream_idx) :
    writes_to .video (main lib argc).calls
        = reads_with (session lib).video_in_stream_idx lib.packets
      ∧ writes_to .audio (main lib argc).calls
          = reads_with (session lib).audio_in_stream_idx lib.packets
            + if (session lib).audio_in_stream_idx = 0 then
                reads_with (session lib).video_in_stream_idx lib.packets
              else 0 := by
  obtain ⟨h1, h2⟩ := read_loop_counts lib (session lib) hok hun hd lib.packets 0
  have hz : ∀ o, writes_to o (main lib argc).calls
      = writes_to o (read_loop lib (session lib) 0 lib.packets).2 := by
    intro o
    rw [main_of_setup_ok lib argc hs]
    have e1 := writes_to_of_not_loop o _ (input_calls_not_loop lib)
    have e2 := writes_to_of_not_loop o _ (output_calls_not_loop lib .video)
    have e3 := writes_to_of_not_loop o _ (output_calls_not_loop lib .audio)
    have e4 := writes_to_of_not_loop o _ (cleanup_not_loop lib true true)
    simp only [writes_to] at e1 e2 e3 e4 ⊢
    simp [finish, List.countP_append, e1, e2, e3, e4, List.countP_cons, is_write]
  rw [hz, hz]
  exact ⟨h1, h2⟩

/-- C4 (as the code behaves): in the run `lib_audio_first` the audio stream is
stream 0 and the video stream is stream 1, no write fails, and the input
delivers one packet, of the video stream.  The video branch writes it and
leaves `pkt.stream_index` at 0 (line 285, and `av_packet_unref` resets the
packet), so the audio test of line 297 succeeds as well: one packet is written
to the video output and one, the emptied packet, to the audio output, although
no packet with the audio index was read.  Two writes are made for one read
packet. -/
theorem audio_index_zero_extra_audio_write :
    (session lib_audio_first).video_in_stream_idx = 1
      ∧ (session lib_audio_first).audio_in_stream_idx = 0
      ∧ lib_audio_first.packets = [sample_packet 1 0 10]
      ∧ reads_with 1 lib_audio_first.packets = 1
      ∧ reads_with 0 lib_audio_first.packets = 0
      ∧ writes_to .video (main lib_audio_first 4).calls = 1
      ∧ writes_to .audio (main lib_audio_first 4).calls = 1
      ∧ Call.av_interleaved_write_frame .audio 0 blank_packet
          ∈ (main lib_audio_first 4).calls := by
  decide

end Demux
